import Mathlib

/-!
Verification of the `transfer-tokens` Anchor program and its demo client.

Shallow embedding of:
  - `programs/transfer-tokens/src/instructions/{mint,transfer,burn}.rs`:
    the instruction handler bodies, modelled as functions that produce the
    list of cross-program invocations (CPIs) they issue together with the
    result obtained from the external SPL token program.  The external
    program is a parameter `h : CpiCall → σ → Except Err σ` acting on an
    abstract ledger state `σ`.
  - the declarative `#[derive(Accounts)]` constraint blocks of the same
    files, modelled as validation functions over an account `World`,
    following the documented meaning of the Anchor constraints used there
    (`Signer`, `Account<Mint>`, `SystemAccount`, `associated_token::mint`,
    `associated_token::authority`, `init_if_needed`, `Program`).
  - `src/main.rs`: the demo client, modelled as the trace of host
    operations and standard-output lines it produces on the path where
    every RPC call succeeds, parameterised by an environment `Env`
    supplying the values the outside world returns.

Machine integers: the handlers compute `amount * 10u64.pow(decimals)` in
Rust `u64` arithmetic; this is modelled on `Nat` with explicit reduction
modulo `2 ^ 64` (release-build wrapping semantics), plus a checked variant
returning `none` where debug-build arithmetic would panic on overflow.
-/

namespace TransferTokens

/-- Account addresses, abstracted to naturals. -/
abbrev Pubkey := Nat

/-- `2 ^ 64`, the modulus of Rust `u64` arithmetic. -/
def U64_MOD : Nat := 2 ^ 64

/-- `10u64.pow d` with release-build wrapping semantics: repeated wrapping
multiplication yields `10 ^ d` reduced modulo `2 ^ 64`. -/
def pow10_u64 (d : Nat) : Nat := 10 ^ d % U64_MOD

/-- `amount * 10u64.pow(decimals)` with release-build wrapping semantics:
the wrapped power, then a wrapping multiplication. -/
def scale_amount (amount d : Nat) : Nat := amount * pow10_u64 d % U64_MOD

/-- `amount * 10u64.pow(decimals)` with debug-build semantics: `none` when
either the power or the multiplication overflows `u64` (a panic in Rust). -/
def scale_amount_checked (amount d : Nat) : Option Nat :=
  if 10 ^ d < U64_MOD then
    if amount * 10 ^ d < U64_MOD then some (amount * 10 ^ d) else none
  else none

/-- Error codes surfaced through `anchor_lang::Result`; the concrete
numeric code is irrelevant to the handlers, which never inspect it. -/
abbrev Err := Nat

/-- The error an Anchor accounts-validation failure produces (stand-in
code; the handlers never run in that case). -/
def ACCOUNT_VALIDATION_ERR : Err := 2000

/-- One cross-program invocation into the external token program, carrying
exactly the data the handlers pass: account addresses and the amount.
`createMetadata` is the call of the spec-modelled `create_token` handler. -/
inductive CpiCall
  | mintTo (mint dest authority : Pubkey) (amount : Nat)
  | transfer (fromAcct dest authority : Pubkey) (amount : Nat)
  | burn (mint fromAcct authority : Pubkey) (amount : Nat)
  | createMetadata (mint payer : Pubkey) (title symbol uri : String)
  deriving DecidableEq

/-- The amount argument a CPI forwards to the token program (0 for the
metadata call, which carries no amount). -/
def CpiCall.amountArg : CpiCall → Nat
  | .mintTo _ _ _ a => a
  | .transfer _ _ _ a => a
  | .burn _ _ _ a => a
  | .createMetadata _ _ _ _ _ => 0

/-- The amounts forwarded by a handler run, in order of its CPIs. -/
def forwarded (r : List CpiCall × Except Err σ) : List Nat :=
  r.1.map CpiCall.amountArg

/-- The deserialized `Account<'info, Mint>`: its address and the fields of
the SPL `Mint` state the program reads. -/
structure MintAccount where
  key : Pubkey
  decimals : Nat
  deriving DecidableEq

/-- Accounts of `MintToken<'info>` (mint.rs), after validation. -/
structure MintTokenAccounts where
  mint_authority : Pubkey
  recipient : Pubkey
  mint_account : MintAccount
  associated_token_account : Pubkey
  token_program : Pubkey
  associated_token_program : Pubkey
  system_program : Pubkey
  deriving DecidableEq

/-- Accounts of `TransferTokens<'info>` (transfer.rs), after validation. -/
structure TransferTokensAccounts where
  sender : Pubkey
  recipient : Pubkey
  mint_account : MintAccount
  sender_token_account : Pubkey
  recipient_token_account : Pubkey
  token_program : Pubkey
  associated_token_program : Pubkey
  system_program : Pubkey
  deriving DecidableEq

/-- Accounts of `BurnTokens<'info>` (burn.rs), after validation. -/
structure BurnTokensAccounts where
  owner : Pubkey
  mint_account : MintAccount
  token_account : Pubkey
  token_program : Pubkey
  deriving DecidableEq

/-- Accounts of `CreateToken<'info>`.  Modelled from the spec:
`instructions/create.rs` is not present under src (only its caller in
lib.rs is); the spec says the handler issues one call into the host
program, and lib.rs documents it as creating the metadata account. -/
structure CreateTokenAccounts where
  payer : Pubkey
  mint_account : Pubkey
  metadata_account : Pubkey
  token_program : Pubkey
  deriving DecidableEq

/-- The `MintTo` CPI built by mint.rs lines 44-53: mint, destination and
authority account addresses, and the decimals-scaled amount. -/
def mintCpi (ctx : MintTokenAccounts) (amount : Nat) : CpiCall :=
  .mintTo ctx.mint_account.key ctx.associated_token_account ctx.mint_authority
    (scale_amount amount ctx.mint_account.decimals)

/-- The `Transfer` CPI built by transfer.rs lines 54-63. -/
def transferCpi (ctx : TransferTokensAccounts) (amount : Nat) : CpiCall :=
  .transfer ctx.sender_token_account ctx.recipient_token_account ctx.sender
    (scale_amount amount ctx.mint_account.decimals)

/-- The `Burn` CPI built by burn.rs lines 38-47. -/
def burnCpi (ctx : BurnTokensAccounts) (amount : Nat) : CpiCall :=
  .burn ctx.mint_account.key ctx.token_account ctx.owner
    (scale_amount amount ctx.mint_account.decimals)

/-- Handler body of `mint_token` (mint.rs lines 37-58): one `mint_to` CPI
with the `?` operator, then `Ok(())`.  `h` is the external token program
acting on ledger state `σ`; the returned list is the trace of CPIs issued. -/
def mint_token (h : CpiCall → σ → Except Err σ) (st : σ)
    (ctx : MintTokenAccounts) (amount : Nat) : List CpiCall × Except Err σ :=
  let call := mintCpi ctx amount
  ([call], do let st1 ← h call st; pure st1)

/-- Handler body of `transfer_tokens` (transfer.rs lines 46-68): one
`transfer` CPI with the `?` operator, then `Ok(())`. -/
def transfer_tokens (h : CpiCall → σ → Except Err σ) (st : σ)
    (ctx : TransferTokensAccounts) (amount : Nat) : List CpiCall × Except Err σ :=
  let call := transferCpi ctx amount
  ([call], do let st1 ← h call st; pure st1)

/-- Handler body of `burn_tokens` (burn.rs lines 30-52): one `burn` CPI
with the `?` operator, then `Ok(())`. -/
def burn_tokens (h : CpiCall → σ → Except Err σ) (st : σ)
    (ctx : BurnTokensAccounts) (amount : Nat) : List CpiCall × Except Err σ :=
  let call := burnCpi ctx amount
  ([call], do let st1 ← h call st; pure st1)

/-- Modelled from the spec: handler body of `create_token`
(instructions/create.rs, missing from src).  Per the spec, the handler
issues exactly one call into the host program; per lib.rs it creates the
metadata account for the mint. -/
def create_token (h : CpiCall → σ → Except Err σ) (st : σ)
    (ctx : CreateTokenAccounts)
    (token_title token_symbol token_uri : String) : List CpiCall × Except Err σ :=
  let call := CpiCall.createMetadata ctx.mint_account ctx.payer
    token_title token_symbol token_uri
  ([call], do let st1 ← h call st; pure st1)

/-! ### Declarative account validation

The `#[derive(Accounts)]` blocks are interpreted by the Anchor framework
before the handler body runs.  The world below records what those checks
consult: which addresses signed the transaction, which addresses hold a
deserialized SPL `Mint`, which hold an SPL token account, and which are
system-owned wallets.  The associated-token-address derivation is a fixed
deterministic hash; it is kept abstract as a parameter
`derive : Pubkey → Pubkey → Pubkey` mapping (authority, mint) to the
associated token account address. -/

/-- Fields of the SPL `Mint` state. -/
structure MintState where
  mintAuthority : Option Pubkey
  supply : Nat
  decimals : Nat
  freezeAuthority : Option Pubkey
  deriving DecidableEq

/-- Fields of an SPL token account consulted by validation. -/
structure TokenAccountState where
  mint : Pubkey
  owner : Pubkey
  amount : Nat
  deriving DecidableEq

/-- On-chain account state as validation sees it. -/
structure World where
  isSigner : Pubkey → Bool
  isSystemOwned : Pubkey → Bool
  mints : Pubkey → Option MintState
  tokenAccounts : Pubkey → Option TokenAccountState

/-- Stand-in for the fixed SPL token program address. -/
def TOKEN_PROGRAM_ID : Pubkey := 101

/-- Stand-in for the fixed associated-token program address. -/
def ATA_PROGRAM_ID : Pubkey := 102

/-- Stand-in for the fixed system program address. -/
def SYSTEM_PROGRAM_ID : Pubkey := 103

/-- Raw account addresses supplied to the `MintToken` instruction. -/
structure MintTokenMeta where
  mint_authority : Pubkey
  recipient : Pubkey
  mint_account : Pubkey
  associated_token_account : Pubkey
  token_program : Pubkey
  associated_token_program : Pubkey
  system_program : Pubkey
  deriving DecidableEq

/-- Raw account addresses supplied to the `TransferTokens` instruction. -/
structure TransferTokensMeta where
  sender : Pubkey
  recipient : Pubkey
  mint_account : Pubkey
  sender_token_account : Pubkey
  recipient_token_account : Pubkey
  token_program : Pubkey
  associated_token_program : Pubkey
  system_program : Pubkey
  deriving DecidableEq

/-- Raw account addresses supplied to the `BurnTokens` instruction. -/
structure BurnTokensMeta where
  owner : Pubkey
  mint_account : Pubkey
  token_account : Pubkey
  token_program : Pubkey
  deriving DecidableEq

/-- The world after `init_if_needed` creates a fresh associated token
account `key` for `owner` holding `mint`, with zero balance. -/
def createAta (w : World) (key mint owner : Pubkey) : World :=
  { w with tokenAccounts := fun k =>
      if k = key then some ⟨mint, owner, 0⟩ else w.tokenAccounts k }

/-- Validation of `MintToken<'info>` (mint.rs lines 10-32): the
`mint_authority` signed; `recipient` is a system account; `mint_account`
deserializes as a `Mint`; `associated_token_account` is the derived
associated token address of (recipient, mint) and, when it already
exists, holds that mint for that owner — otherwise `init_if_needed`
creates it (payer `mint_authority`); the three program accounts are the
expected programs.  Returns the deserialized accounts and the world after
any on-demand creation. -/
def validateMintToken (derive : Pubkey → Pubkey → Pubkey) (w : World)
    (m : MintTokenMeta) : Option (MintTokenAccounts × World) :=
  if w.isSigner m.mint_authority = true then
    if w.isSystemOwned m.recipient = true then
      match w.mints m.mint_account with
      | none => none
      | some ms =>
        if m.token_program = TOKEN_PROGRAM_ID ∧
            m.associated_token_program = ATA_PROGRAM_ID ∧
            m.system_program = SYSTEM_PROGRAM_ID then
          if m.associated_token_account = derive m.recipient m.mint_account then
            let ctx : MintTokenAccounts :=
              ⟨m.mint_authority, m.recipient, ⟨m.mint_account, ms.decimals⟩,
                m.associated_token_account, m.token_program,
                m.associated_token_program, m.system_program⟩
            match w.tokenAccounts m.associated_token_account with
            | some ta =>
              if ta.mint = m.mint_account ∧ ta.owner = m.recipient then
                some (ctx, w)
              else none
            | none =>
              some (ctx, createAta w m.associated_token_account m.mint_account m.recipient)
          else none
        else none
    else none
  else none

/-- Validation of `TransferTokens<'info>` (transfer.rs lines 10-40): the
`sender` signed; `recipient` is a system account; `mint_account`
deserializes as a `Mint`; `sender_token_account` is the existing derived
associated token account of (sender, mint); `recipient_token_account` is
the derived associated token address of (recipient, mint), created on
demand by `init_if_needed` (payer `sender`); program accounts as
declared. -/
def validateTransferTokens (derive : Pubkey → Pubkey → Pubkey) (w : World)
    (m : TransferTokensMeta) : Option (TransferTokensAccounts × World) :=
  if w.isSigner m.sender = true then
    if w.isSystemOwned m.recipient = true then
      match w.mints m.mint_account with
      | none => none
      | some ms =>
        if m.token_program = TOKEN_PROGRAM_ID ∧
            m.associated_token_program = ATA_PROGRAM_ID ∧
            m.system_program = SYSTEM_PROGRAM_ID then
          if m.sender_token_account = derive m.sender m.mint_account then
            match w.tokenAccounts m.sender_token_account with
            | none => none
            | some sta =>
              if sta.mint = m.mint_account ∧ sta.owner = m.sender then
                if m.recipient_token_account = derive m.recipient m.mint_account then
                  let ctx : TransferTokensAccounts :=
                    ⟨m.sender, m.recipient, ⟨m.mint_account, ms.decimals⟩,
                      m.sender_token_account, m.recipient_token_account,
                      m.token_program, m.associated_token_program,
                      m.system_program⟩
                  match w.tokenAccounts m.recipient_token_account with
                  | some ta =>
                    if ta.mint = m.mint_account ∧ ta.owner = m.recipient then
                      some (ctx, w)
                    else none
                  | none =>
                    some (ctx,
                      createAta w m.recipient_token_account m.mint_account m.recipient)
                else none
              else none
          else none
        else none
    else none
  else none

/-- Validation of `BurnTokens<'info>` (burn.rs lines 7-24): the `owner`
signed; `mint_account` deserializes as a `Mint`; `token_account` is the
existing derived associated token account of (owner, mint) — there is no
`init_if_needed`, so a missing account is a validation failure; the token
program account is the token program. -/
def validateBurnTokens (derive : Pubkey → Pubkey → Pubkey) (w : World)
    (m : BurnTokensMeta) : Option (BurnTokensAccounts × World) :=
  if w.isSigner m.owner = true then
    match w.mints m.mint_account with
    | none => none
    | some ms =>
      if m.token_program = TOKEN_PROGRAM_ID then
        if m.token_account = derive m.owner m.mint_account then
          match w.tokenAccounts m.token_account with
          | none => none
          | some ta =>
            if ta.mint = m.mint_account ∧ ta.owner = m.owner then
              some (⟨m.owner, ⟨m.mint_account, ms.decimals⟩,
                m.token_account, m.token_program⟩, w)
            else none
        else none
      else none
  else none

/-- Full `mint_token` instruction: Anchor account validation, then the
handler body; a validation failure is rejected before any token-program
CPI is issued. -/
def exec_mint_token (derive : Pubkey → Pubkey → Pubkey)
    (h : CpiCall → World → Except Err World) (w : World)
    (m : MintTokenMeta) (amount : Nat) : List CpiCall × Except Err World :=
  match validateMintToken derive w m with
  | none => ([], .error ACCOUNT_VALIDATION_ERR)
  | some (ctx, w1) => mint_token h w1 ctx amount

/-- Full `transfer_tokens` instruction: validation, then the handler body. -/
def exec_transfer_tokens (derive : Pubkey → Pubkey → Pubkey)
    (h : CpiCall → World → Except Err World) (w : World)
    (m : TransferTokensMeta) (amount : Nat) : List CpiCall × Except Err World :=
  match validateTransferTokens derive w m with
  | none => ([], .error ACCOUNT_VALIDATION_ERR)
  | some (ctx, w1) => transfer_tokens h w1 ctx amount

/-- Full `burn_tokens` instruction: validation, then the handler body. -/
def exec_burn_tokens (derive : Pubkey → Pubkey → Pubkey)
    (h : CpiCall → World → Except Err World) (w : World)
    (m : BurnTokensMeta) (amount : Nat) : List CpiCall × Except Err World :=
  match validateBurnTokens derive w m with
  | none => ([], .error ACCOUNT_VALIDATION_ERR)
  | some (ctx, w1) => burn_tokens h w1 ctx amount

/-- A host whose CPIs always succeed without touching the ledger. -/
def okHost : CpiCall → World → Except Err World := fun _ w => .ok w

/-! ### Entry-point signatures (lib.rs lines 15-40) -/

/-- The four externally invoked entry points of the `transfer_tokens`
program module. -/
inductive EntryPoint
  | create_token
  | mint_token
  | transfer_tokens
  | burn_tokens
  deriving DecidableEq

/-- Rust types occurring among the entry points' value parameters. -/
inductive ParamTy
  | str
  | u64
  deriving DecidableEq

/-- The value parameters (beyond the accounts context) of each entry
point, as declared in lib.rs: `create_token` takes three `String`s
(title, symbol, uri); the other three each take a single `u64` amount. -/
def entryParams : EntryPoint → List ParamTy
  | .create_token => [.str, .str, .str]
  | .mint_token => [.u64]
  | .transfer_tokens => [.u64]
  | .burn_tokens => [.u64]

end TransferTokens

namespace DemoClient

open TransferTokens (Pubkey MintState TokenAccountState)

/-! ### The demo client (src/main.rs)

Modelled as the sequence of events — host (RPC) calls and standard-output
lines — the `main` function produces on the path where every RPC call and
every unpack succeeds.  The environment `Env` supplies everything the
outside world returns: the generated keypairs (as addresses), blockhashes,
signatures, the rent quote, how many times each airdrop confirmation polls
false before polling true, and the account data read back at the end. -/

/-- The length of the packed SPL `Mint` state (`Mint::LEN`). -/
def MINT_LEN : Nat := 82

/-- Stand-in for the fixed `spl_token::id()` program address. -/
def SPL_TOKEN_ID : Pubkey := 101

/-- Instructions the client builds into transactions. -/
inductive Ix
  | createAccount (payer newAccount : Pubkey) (lamports space : Nat) (owner : Pubkey)
  | initMint2 (program mint mintAuthority : Pubkey)
      (freezeAuthority : Option Pubkey) (decimals : Nat)
  | createAssociatedTokenAccount (funding wallet mint tokenProgram : Pubkey)
  | mintTo (program mint dest authority : Pubkey) (signerKeys : List Pubkey) (amount : Nat)
  | transferChecked (program source mint dest owner : Pubkey)
      (signerKeys : List Pubkey) (amount decimals : Nat)
  deriving DecidableEq

/-- RPC calls the client makes against the network. -/
inductive HostOp
  | connect (url : String)
  | getLatestBlockhash
  | requestAirdrop (dest : Pubkey) (lamports : Nat)
  | confirmTransaction (sig : Nat)
  | getMinimumBalanceForRentExemption (space : Nat)
  | sendAndConfirmTransaction (instrs : List Ix) (payer : Pubkey)
      (signerKeys : List Pubkey) (blockhash : Nat)
  | getAccount (key : Pubkey)
  deriving DecidableEq

/-- Lines the client prints to standard output at the end. -/
inductive OutLine
  | successMsg
  | mintAddress (key : Pubkey)
  | mintDump (m : MintState)
  | sourceAddress (key : Pubkey)
  | tokenBalance (n : Nat)
  | acctDump (a : TokenAccountState)
  | destAddress (key : Pubkey)
  | txSignature (sig : Nat)
  deriving DecidableEq

/-- One event of a client run. -/
inductive Ev
  | host (op : HostOp)
  | print (l : OutLine)
  deriving DecidableEq

/-- What the outside world returns to the client during a successful run. -/
structure Env where
  feePayer : Pubkey
  recipient : Pubkey
  mint : Pubkey
  blockhash1 : Nat
  blockhash2 : Nat
  airdropSig1 : Nat
  airdropSig2 : Nat
  pollFalse1 : Nat
  pollFalse2 : Nat
  mintRent : Nat
  txSig2 : Nat
  mintState : MintState
  sourceState : TokenAccountState
  destState : TokenAccountState

/-- The `loop { if confirm_transaction(sig) break }` polling loop: the
environment answers `false` to the first `falsePolls` calls and `true` to
the next, so the loop makes `falsePolls + 1` confirmation calls. -/
def confirmLoop (sig : Nat) : Nat → List Ev
  | 0 => [.host (.confirmTransaction sig)]
  | n + 1 => .host (.confirmTransaction sig) :: confirmLoop sig n

/-- The event trace of `main` (src/main.rs) on a run where every RPC call
succeeds, given the associated-token-address derivation `derive` and the
environment.  Mirrors the source top to bottom: connect, fetch a
blockhash, two airdrops each polled to confirmation, the rent quote, the
five-instruction first transaction, a fresh blockhash, the one-instruction
transfer transaction, three account reads, then the printed report. -/
def clientRun (derive : Pubkey → Pubkey → Pubkey) (env : Env) : List Ev :=
  let sourceTokenAddress := derive env.feePayer env.mint
  let destinationTokenAddress := derive env.recipient env.mint
  let tx1 : List Ix :=
    [.createAccount env.feePayer env.mint env.mintRent MINT_LEN SPL_TOKEN_ID,
     .initMint2 SPL_TOKEN_ID env.mint env.feePayer (some env.feePayer) 2,
     .createAssociatedTokenAccount env.feePayer env.feePayer env.mint SPL_TOKEN_ID,
     .createAssociatedTokenAccount env.feePayer env.recipient env.mint SPL_TOKEN_ID,
     .mintTo SPL_TOKEN_ID env.mint sourceTokenAddress env.feePayer [env.feePayer] 10000]
  let tx2 : List Ix :=
    [.transferChecked SPL_TOKEN_ID sourceTokenAddress env.mint
      destinationTokenAddress env.feePayer [env.feePayer] 50 2]
  [Ev.host (.connect "http://localhost:8899"),
   Ev.host .getLatestBlockhash,
   Ev.host (.requestAirdrop env.feePayer 1000000000)]
  ++ confirmLoop env.airdropSig1 env.pollFalse1
  ++ [Ev.host (.requestAirdrop env.recipient 1000000000)]
  ++ confirmLoop env.airdropSig2 env.pollFalse2
  ++ [Ev.host (.getMinimumBalanceForRentExemption MINT_LEN),
      Ev.host (.sendAndConfirmTransaction tx1 env.feePayer
        [env.feePayer, env.mint] env.blockhash1),
      Ev.host .getLatestBlockhash,
      Ev.host (.sendAndConfirmTransaction tx2 env.feePayer
        [env.feePayer] env.blockhash2),
      Ev.host (.getAccount env.mint),
      Ev.host (.getAccount sourceTokenAddress),
      Ev.host (.getAccount destinationTokenAddress),
      Ev.print .successMsg,
      Ev.print (.mintAddress env.mint),
      Ev.print (.mintDump env.mintState),
      Ev.print (.sourceAddress sourceTokenAddress),
      Ev.print (.tokenBalance env.sourceState.amount),
      Ev.print (.acctDump env.sourceState),
      Ev.print (.destAddress destinationTokenAddress),
      Ev.print (.tokenBalance env.destState.amount),
      Ev.print (.acctDump env.destState),
      Ev.print (.txSignature env.txSig2)]

/-- The transactions a trace submits, in order, with their payloads. -/
def sentTxs (tr : List Ev) : List (List Ix) :=
  tr.filterMap fun e =>
    match e with
    | .host (.sendAndConfirmTransaction instrs _ _ _) => some instrs
    | _ => none

end DemoClient

namespace TransferTokens

/-! ### Helper lemmas -/

theorem scale_amount_lt (a d : Nat) : scale_amount a d < U64_MOD :=
  Nat.mod_lt _ (by norm_num [U64_MOD])

theorem scale_amount_eq_of_lt (a d : Nat) (h : a * 10 ^ d < U64_MOD) :
    scale_amount a d = a * 10 ^ d := by
  rcases Nat.eq_zero_or_pos a with rfl | ha
  · simp [scale_amount]
  · have hp : 10 ^ d < U64_MOD :=
      lt_of_le_of_lt (Nat.le_mul_of_pos_left _ ha) h
    rw [scale_amount, pow10_u64, Nat.mod_eq_of_lt hp, Nat.mod_eq_of_lt h]

theorem scale_amount_ne_of_overflow (a d : Nat) (h : U64_MOD ≤ a * 10 ^ d) :
    scale_amount a d ≠ a * 10 ^ d := by
  intro heq
  have := scale_amount_lt a d
  omega

theorem pow_ten_overflows (d : Nat) (h : 20 ≤ d) : U64_MOD ≤ 10 ^ d :=
  le_trans (by norm_num [U64_MOD]) (Nat.pow_le_pow_right (by norm_num) h)

theorem scale_amount_checked_none (a d : Nat) (h : 20 ≤ d) :
    scale_amount_checked a d = none := by
  have := pow_ten_overflows d h
  simp [scale_amount_checked, Nat.not_lt.2 this]

/-! ### Claims about the instruction handlers -/

/-- C1 (counterexample): the claim says the amount forwarded to the token
program always equals `a * 10 ^ decimals`; on a mint with 20 decimals and
whole-token amount 1 the `u64` computation wraps and the forwarded amount
is not `1 * 10 ^ 20`. -/
theorem C1_counterexample :
    forwarded (mint_token (fun _ _ => Except.ok ()) ()
      ⟨33, 44, ⟨7, 20⟩, 22, 101, 102, 103⟩ 1) ≠ [1 * 10 ^ 20] := by
  decide

/-- C1 (amended): whenever the mathematical product `a * 10 ^ decimals`
fits in `u64`, each of `mint_token`, `transfer_tokens` and `burn_tokens`
forwards exactly `a * 10 ^ decimals` to the token program's
mint_to/transfer/burn operation. -/
theorem C1_forwarded_is_scaled {σ : Type} (h : CpiCall → σ → Except Err σ)
    (st : σ) (mctx : MintTokenAccounts) (tctx : TransferTokensAccounts)
    (bctx : BurnTokensAccounts) (a1 a2 a3 : Nat)
    (h1 : a1 * 10 ^ mctx.mint_account.decimals < U64_MOD)
    (h2 : a2 * 10 ^ tctx.mint_account.decimals < U64_MOD)
    (h3 : a3 * 10 ^ bctx.mint_account.decimals < U64_MOD) :
    forwarded (mint_token h st mctx a1) = [a1 * 10 ^ mctx.mint_account.decimals] ∧
    forwarded (transfer_tokens h st tctx a2) = [a2 * 10 ^ tctx.mint_account.decimals] ∧
    forwarded (burn_tokens h st bctx a3) = [a3 * 10 ^ bctx.mint_account.decimals] := by
  refine ⟨?_, ?_, ?_⟩ <;>
    simp [forwarded, mint_token, transfer_tokens, burn_tokens, mintCpi,
      transferCpi, burnCpi, CpiCall.amountArg,
      scale_amount_eq_of_lt _ _ h1, scale_amount_eq_of_lt _ _ h2,
      scale_amount_eq_of_lt _ _ h3]

/-- C1 witness: the amended theorem applied to a concrete mint with 2
decimals and amount 100, forwarding 10000. -/
theorem C1_witness :
    forwarded (mint_token (fun _ _ => Except.ok ()) ()
      ⟨33, 44, ⟨7, 2⟩, 22, 101, 102, 103⟩ 100) = [100 * 10 ^ 2] :=
  (C1_forwarded_is_scaled (fun _ _ => Except.ok ()) ()
    ⟨33, 44, ⟨7, 2⟩, 22, 101, 102, 103⟩
    ⟨33, 44, ⟨7, 2⟩, 22, 23, 101, 102, 103⟩
    ⟨33, ⟨7, 2⟩, 22, 101⟩ 100 100 100
    (by norm_num [U64_MOD]) (by norm_num [U64_MOD]) (by norm_num [U64_MOD])).1

/-- C2: each handler body returns exactly the result of its single CPI
into the token program — an error is propagated unchanged, with no local
recovery, and a successful CPI yields a successful return. -/
theorem C2_error_propagation {σ : Type} (h : CpiCall → σ → Except Err σ)
    (st : σ) (mctx : MintTokenAccounts) (tctx : TransferTokensAccounts)
    (bctx : BurnTokensAccounts) (a : Nat) :
    (mint_token h st mctx a).2 = h (mintCpi mctx a) st ∧
    (transfer_tokens h st tctx a).2 = h (transferCpi tctx a) st ∧
    (burn_tokens h st bctx a).2 = h (burnCpi bctx a) st := by
  refine ⟨?_, ?_, ?_⟩ <;>
    simp [mint_token, transfer_tokens, burn_tokens]

/-- C3: each of the four handler bodies issues exactly one CPI into the
external token program per execution (`create_token` is modelled from the
spec, its source file being absent from src). -/
theorem C3_single_cpi {σ : Type} (h : CpiCall → σ → Except Err σ) (st : σ)
    (cctx : CreateTokenAccounts) (mctx : MintTokenAccounts)
    (tctx : TransferTokensAccounts) (bctx : BurnTokensAccounts)
    (t s u : String) (a : Nat) :
    (create_token h st cctx t s u).1.length = 1 ∧
    (mint_token h st mctx a).1.length = 1 ∧
    (transfer_tokens h st tctx a).1.length = 1 ∧
    (burn_tokens h st bctx a).1.length = 1 :=
  ⟨rfl, rfl, rfl, rfl⟩

/-- C4 (counterexample): the claim says every one of the four entry
points takes a whole-token amount parameter; `create_token` (lib.rs lines
15-22) takes three `String` parameters and no `u64` amount at all. -/
theorem C4_counterexample :
    entryParams EntryPoint.create_token = [ParamTy.str, ParamTy.str, ParamTy.str] ∧
    ParamTy.u64 ∉ entryParams EntryPoint.create_token := by
  decide

/-- C4 (amended): three of the four entry points — `mint_token`,
`transfer_tokens`, `burn_tokens` — take a single `u64` amount in
whole-token units and forward it scaled by `10 ^ decimals` (in wrapping
`u64` arithmetic) to the host ledger; `create_token` takes three strings
and forwards no amount. -/
theorem C4_amount_entry_points :
    entryParams EntryPoint.mint_token = [ParamTy.u64] ∧
    entryParams EntryPoint.transfer_tokens = [ParamTy.u64] ∧
    entryParams EntryPoint.burn_tokens = [ParamTy.u64] ∧
    entryParams EntryPoint.create_token = [ParamTy.str, ParamTy.str, ParamTy.str] ∧
    ∀ (σ : Type) (h : CpiCall → σ → Except Err σ) (st : σ)
      (mctx : MintTokenAccounts) (tctx : TransferTokensAccounts)
      (bctx : BurnTokensAccounts) (a : Nat),
      forwarded (mint_token h st mctx a) = [scale_amount a mctx.mint_account.decimals] ∧
      forwarded (transfer_tokens h st tctx a) = [scale_amount a tctx.mint_account.decimals] ∧
      forwarded (burn_tokens h st bctx a) = [scale_amount a bctx.mint_account.decimals] := by
  refine ⟨rfl, rfl, rfl, rfl, ?_⟩
  intro σ h st mctx tctx bctx a
  refine ⟨?_, ?_, ?_⟩ <;>
    simp [forwarded, mint_token, transfer_tokens, burn_tokens, mintCpi,
      transferCpi, burnCpi, CpiCall.amountArg]

/-- C5: the handler bodies mutate no account state themselves — when the
single CPI is a no-op on the ledger state, the state after each handler is
exactly the state before. -/
theorem C5_no_local_state_mutation (σ : Type) (st : σ)
    (mctx : MintTokenAccounts) (tctx : TransferTokensAccounts)
    (bctx : BurnTokensAccounts) (a : Nat) :
    (mint_token (fun _ s => Except.ok s) st mctx a).2 = Except.ok st ∧
    (transfer_tokens (fun _ s => Except.ok s) st tctx a).2 = Except.ok st ∧
    (burn_tokens (fun _ s => Except.ok s) st bctx a).2 = Except.ok st :=
  ⟨rfl, rfl, rfl⟩

/-- C8: the decimal scaling is unchecked `u64` arithmetic: whenever the
mathematical product reaches `2 ^ 64` the wrapped (release-build) value
differs from it, the checked (debug-build) computation panics for every
mint with at least 20 decimals, and each handler forwards exactly the
wrapped value `scale_amount`. -/
theorem C8_unchecked_overflow :
    (∀ a d : Nat, U64_MOD ≤ a * 10 ^ d → scale_amount a d ≠ a * 10 ^ d) ∧
    (∀ a d : Nat, 20 ≤ d → scale_amount_checked a d = none) ∧
    ∀ (σ : Type) (h : CpiCall → σ → Except Err σ) (st : σ)
      (mctx : MintTokenAccounts) (tctx : TransferTokensAccounts)
      (bctx : BurnTokensAccounts) (a : Nat),
      forwarded (mint_token h st mctx a) = [scale_amount a mctx.mint_account.decimals] ∧
      forwarded (transfer_tokens h st tctx a) = [scale_amount a tctx.mint_account.decimals] ∧
      forwarded (burn_tokens h st bctx a) = [scale_amount a bctx.mint_account.decimals] := by
  refine ⟨scale_amount_ne_of_overflow, scale_amount_checked_none, ?_⟩
  intro σ h st mctx tctx bctx a
  refine ⟨?_, ?_, ?_⟩ <;>
    simp [forwarded, mint_token, transfer_tokens, burn_tokens, mintCpi,
      transferCpi, burnCpi, CpiCall.amountArg]

/-- C8 witness: on a 2-decimals mint, amount `2 ^ 62` wraps to a value
different from the mathematical product, and 20 decimals makes the
checked computation overflow already at amount 1. -/
theorem C8_witness :
    scale_amount 4611686018427387904 2 ≠ 4611686018427387904 * 10 ^ 2 ∧
    scale_amount_checked 1 20 = none :=
  ⟨C8_unchecked_overflow.1 4611686018427387904 2 (by norm_num [U64_MOD]),
   C8_unchecked_overflow.2.1 1 20 (by norm_num)⟩

end TransferTokens

namespace DemoClient

open TransferTokens (Pubkey)

theorem confirmLoop_eq_replicate (sig n : Nat) :
    confirmLoop sig n =
      List.replicate (n + 1) (Ev.host (HostOp.confirmTransaction sig)) := by
  induction n with
  | zero => rfl
  | succ k ih => simp [confirmLoop, ih, List.replicate_succ]

theorem sentTxs_append (l1 l2 : List Ev) :
    sentTxs (l1 ++ l2) = sentTxs l1 ++ sentTxs l2 := by
  simp [sentTxs]

theorem sentTxs_confirmLoop (sig n : Nat) : sentTxs (confirmLoop sig n) = [] := by
  induction n with
  | zero => rfl
  | succ k ih => simp [confirmLoop, sentTxs] at ih ⊢; exact ih

/-- C6: the demo client's host calls happen in a fixed order: airdrop to
the fee payer, polled to confirmation; airdrop to the recipient, polled to
confirmation; one transaction carrying create-mint-account,
initialize-mint, create source ATA, create destination ATA and
mint-to-source, in that order; a second transaction carrying a single
checked transfer; then the three account reads, after which the report is
printed.  (A blockhash fetch precedes the airdrops and another precedes
the second transaction, and the rent quote precedes the first
transaction.) -/
theorem C6_client_call_order (derive : Pubkey → Pubkey → Pubkey) (env : Env) :
    clientRun derive env =
      [Ev.host (HostOp.connect "http://localhost:8899"),
       Ev.host HostOp.getLatestBlockhash,
       Ev.host (HostOp.requestAirdrop env.feePayer 1000000000)]
      ++ List.replicate (env.pollFalse1 + 1)
          (Ev.host (HostOp.confirmTransaction env.airdropSig1))
      ++ [Ev.host (HostOp.requestAirdrop env.recipient 1000000000)]
      ++ List.replicate (env.pollFalse2 + 1)
          (Ev.host (HostOp.confirmTransaction env.airdropSig2))
      ++ [Ev.host (HostOp.getMinimumBalanceForRentExemption MINT_LEN),
          Ev.host (HostOp.sendAndConfirmTransaction
            [Ix.createAccount env.feePayer env.mint env.mintRent MINT_LEN SPL_TOKEN_ID,
             Ix.initMint2 SPL_TOKEN_ID env.mint env.feePayer (some env.feePayer) 2,
             Ix.createAssociatedTokenAccount env.feePayer env.feePayer env.mint SPL_TOKEN_ID,
             Ix.createAssociatedTokenAccount env.feePayer env.recipient env.mint SPL_TOKEN_ID,
             Ix.mintTo SPL_TOKEN_ID env.mint (derive env.feePayer env.mint)
               env.feePayer [env.feePayer] 10000]
            env.feePayer [env.feePayer, env.mint] env.blockhash1),
          Ev.host HostOp.getLatestBlockhash,
          Ev.host (HostOp.sendAndConfirmTransaction
            [Ix.transferChecked SPL_TOKEN_ID (derive env.feePayer env.mint) env.mint
              (derive env.recipient env.mint) env.feePayer [env.feePayer] 50 2]
            env.feePayer [env.feePayer] env.blockhash2),
          Ev.host (HostOp.getAccount env.mint),
          Ev.host (HostOp.getAccount (derive env.feePayer env.mint)),
          Ev.host (HostOp.getAccount (derive env.recipient env.mint)),
          Ev.print OutLine.successMsg,
          Ev.print (OutLine.mintAddress env.mint),
          Ev.print (OutLine.mintDump env.mintState),
          Ev.print (OutLine.sourceAddress (derive env.feePayer env.mint)),
          Ev.print (OutLine.tokenBalance env.sourceState.amount),
          Ev.print (OutLine.acctDump env.sourceState),
          Ev.print (OutLine.destAddress (derive env.recipient env.mint)),
          Ev.print (OutLine.tokenBalance env.destState.amount),
          Ev.print (OutLine.acctDump env.destState),
          Ev.print (OutLine.txSignature env.txSig2)] := by
  simp [clientRun, confirmLoop_eq_replicate]

/-- C7: for every environment the client connects to the hardcoded
endpoint `http://localhost:8899`, submits exactly two transactions whose
payloads carry the hardcoded constants (a mint created with 2 decimals,
10000 base units minted, 50 base units transferred with decimals 2), and
prints both token-account balances and the transfer transaction's
signature to standard output. -/
theorem C7_hardcoded_surface (derive : Pubkey → Pubkey → Pubkey) (env : Env) :
    (clientRun derive env).head? =
      some (Ev.host (HostOp.connect "http://localhost:8899")) ∧
    sentTxs (clientRun derive env) =
      [[Ix.createAccount env.feePayer env.mint env.mintRent MINT_LEN SPL_TOKEN_ID,
        Ix.initMint2 SPL_TOKEN_ID env.mint env.feePayer (some env.feePayer) 2,
        Ix.createAssociatedTokenAccount env.feePayer env.feePayer env.mint SPL_TOKEN_ID,
        Ix.createAssociatedTokenAccount env.feePayer env.recipient env.mint SPL_TOKEN_ID,
        Ix.mintTo SPL_TOKEN_ID env.mint (derive env.feePayer env.mint)
          env.feePayer [env.feePayer] 10000],
       [Ix.transferChecked SPL_TOKEN_ID (derive env.feePayer env.mint) env.mint
         (derive env.recipient env.mint) env.feePayer [env.feePayer] 50 2]] ∧
    Ev.print (OutLine.tokenBalance env.sourceState.amount) ∈ clientRun derive env ∧
    Ev.print (OutLine.tokenBalance env.destState.amount) ∈ clientRun derive env ∧
    Ev.print (OutLine.txSignature env.txSig2) ∈ clientRun derive env := by
  refine ⟨?_, ?_, ?_, ?_, ?_⟩
  · simp [clientRun]
  · simp only [clientRun, sentTxs_append, sentTxs_confirmLoop]
    simp [sentTxs]
  · simp [clientRun]
  · simp [clientRun]
  · simp [clientRun]

end DemoClient

namespace TransferTokens

/-! ### Validation inversion lemmas -/

theorem validateMintToken_some_inv {derive : Pubkey → Pubkey → Pubkey}
    {w : World} {m : MintTokenMeta} {p : MintTokenAccounts × World}
    (h : validateMintToken derive w m = some p) :
    w.isSigner m.mint_authority = true ∧
    m.associated_token_account = derive m.recipient m.mint_account := by
  unfold validateMintToken at h
  repeat' split at h
  all_goals simp_all

theorem validateTransferTokens_some_inv {derive : Pubkey → Pubkey → Pubkey}
    {w : World} {m : TransferTokensMeta} {p : TransferTokensAccounts × World}
    (h : validateTransferTokens derive w m = some p) :
    w.isSigner m.sender = true ∧
    m.sender_token_account = derive m.sender m.mint_account ∧
    m.recipient_token_account = derive m.recipient m.mint_account := by
  unfold validateTransferTokens at h
  repeat' split at h
  all_goals simp_all

theorem validateBurnTokens_some_inv {derive : Pubkey → Pubkey → Pubkey}
    {w : World} {m : BurnTokensMeta} {p : BurnTokensAccounts × World}
    (h : validateBurnTokens derive w m = some p) :
    w.isSigner m.owner = true ∧
    m.token_account = derive m.owner m.mint_account := by
  unfold validateBurnTokens at h
  repeat' split at h
  all_goals simp_all

theorem validateBurnTokens_none_of_missing (derive : Pubkey → Pubkey → Pubkey)
    (w : World) (m : BurnTokensMeta)
    (hb : w.tokenAccounts m.token_account = none) :
    validateBurnTokens derive w m = none := by
  cases hw : w.mints m.mint_account <;>
    simp [validateBurnTokens, hw, hb]

/-! ### Witness fixtures: a small concrete world -/

/-- A concrete stand-in for the associated-token-address derivation. -/
def sampleDerive : Pubkey → Pubkey → Pubkey :=
  fun owner mint => 1000 + owner * 10 + mint

/-- A concrete mint with 2 decimals at address 3. -/
def sampleMint : MintState := ⟨some 1, 0, 2, none⟩

/-- A concrete world: 1, 4 and 6 signed; 2 and 5 are wallets; a mint at
3; one existing token account, the associated account of (4, 3). -/
def sampleWorld : World where
  isSigner := fun k => k == 1 || k == 4 || k == 6
  isSystemOwned := fun k => k == 2 || k == 5
  mints := fun k => if k = 3 then some sampleMint else none
  tokenAccounts := fun k => if k = 1043 then some ⟨3, 4, 500⟩ else none

/-- Mint instruction metas: authority 1 mints to recipient 2 on mint 3;
the recipient's associated account 1023 does not exist yet. -/
def sampleMintMeta : MintTokenMeta := ⟨1, 2, 3, 1023, 101, 102, 103⟩

/-- Transfer metas: sender 4 (existing account 1043) to recipient 5 on
mint 3; the recipient's associated account 1053 does not exist yet. -/
def sampleTransferMeta : TransferTokensMeta := ⟨4, 5, 3, 1043, 1053, 101, 102, 103⟩

/-- Burn metas: owner 6 on mint 3; the owner's associated account 1063
does not exist. -/
def sampleBurnMeta : BurnTokensMeta := ⟨6, 3, 1063, 101⟩

/-! ### Claims about the declarative validation -/

/-- C9: with all other constraints satisfied, `mint_token` and
`transfer_tokens` run to success even when the recipient's associated
token account does not yet exist — `init_if_needed` creates it with zero
balance before the handler body — whereas `burn_tokens` has no creation
path: a missing owner token account is rejected with no CPI issued. -/
theorem C9_init_if_needed (derive : Pubkey → Pubkey → Pubkey) (w : World)
    (mm : MintTokenMeta) (tm : TransferTokensMeta) (bm : BurnTokensMeta)
    (ms ms2 : MintState) (sta : TokenAccountState) (a : Nat)
    (hm1 : w.isSigner mm.mint_authority = true)
    (hm2 : w.isSystemOwned mm.recipient = true)
    (hm3 : w.mints mm.mint_account = some ms)
    (hm4 : mm.token_program = TOKEN_PROGRAM_ID)
    (hm5 : mm.associated_token_program = ATA_PROGRAM_ID)
    (hm6 : mm.system_program = SYSTEM_PROGRAM_ID)
    (hm7 : mm.associated_token_account = derive mm.recipient mm.mint_account)
    (hm8 : w.tokenAccounts mm.associated_token_account = none)
    (ht1 : w.isSigner tm.sender = true)
    (ht2 : w.isSystemOwned tm.recipient = true)
    (ht3 : w.mints tm.mint_account = some ms2)
    (ht4 : tm.token_program = TOKEN_PROGRAM_ID)
    (ht5 : tm.associated_token_program = ATA_PROGRAM_ID)
    (ht6 : tm.system_program = SYSTEM_PROGRAM_ID)
    (ht7 : tm.sender_token_account = derive tm.sender tm.mint_account)
    (ht8 : w.tokenAccounts tm.sender_token_account = some sta)
    (ht9 : sta.mint = tm.mint_account)
    (ht10 : sta.owner = tm.sender)
    (ht11 : tm.recipient_token_account = derive tm.recipient tm.mint_account)
    (ht12 : w.tokenAccounts tm.recipient_token_account = none)
    (hb : w.tokenAccounts bm.token_account = none) :
    (∃ w1, exec_mint_token derive okHost w mm a =
        ([CpiCall.mintTo mm.mint_account mm.associated_token_account
            mm.mint_authority (scale_amount a ms.decimals)], Except.ok w1) ∧
        w1.tokenAccounts mm.associated_token_account =
          some ⟨mm.mint_account, mm.recipient, 0⟩) ∧
    (∃ w1, exec_transfer_tokens derive okHost w tm a =
        ([CpiCall.transfer tm.sender_token_account tm.recipient_token_account
            tm.sender (scale_amount a ms2.decimals)], Except.ok w1) ∧
        w1.tokenAccounts tm.recipient_token_account =
          some ⟨tm.mint_account, tm.recipient, 0⟩) ∧
    ∀ h2 : CpiCall → World → Except Err World,
      exec_burn_tokens derive h2 w bm a = ([], Except.error ACCOUNT_VALIDATION_ERR) := by
  refine ⟨?_, ?_, ?_⟩
  · refine ⟨createAta w mm.associated_token_account mm.mint_account mm.recipient, ?_, ?_⟩
    · rw [hm7] at hm8
      simp [exec_mint_token, validateMintToken, hm1, hm2, hm3, hm4, hm5, hm6,
        hm7, hm8, mint_token, mintCpi, okHost, createAta]
    · simp [createAta]
  · refine ⟨createAta w tm.recipient_token_account tm.mint_account tm.recipient, ?_, ?_⟩
    · rw [ht11] at ht12
      rw [ht7] at ht8
      simp [exec_transfer_tokens, validateTransferTokens, ht1, ht2, ht3, ht4,
        ht5, ht6, ht7, ht8, ht9, ht10, ht11, ht12, transfer_tokens,
        transferCpi, okHost, createAta]
    · simp [createAta]
  · intro h2
    simp [exec_burn_tokens, validateBurnTokens_none_of_missing derive w bm hb]

/-- C9 witness: the theorem at the sample world, where the recipients'
associated accounts 1023 and 1053 are absent and the burn account 1063 is
absent. -/
theorem C9_witness :
    (∃ w1, exec_mint_token sampleDerive okHost sampleWorld sampleMintMeta 7 =
        ([CpiCall.mintTo sampleMintMeta.mint_account
            sampleMintMeta.associated_token_account
            sampleMintMeta.mint_authority (scale_amount 7 sampleMint.decimals)],
          Except.ok w1) ∧
        w1.tokenAccounts sampleMintMeta.associated_token_account =
          some ⟨sampleMintMeta.mint_account, sampleMintMeta.recipient, 0⟩) ∧
    (∃ w1, exec_transfer_tokens sampleDerive okHost sampleWorld sampleTransferMeta 7 =
        ([CpiCall.transfer sampleTransferMeta.sender_token_account
            sampleTransferMeta.recipient_token_account
            sampleTransferMeta.sender (scale_amount 7 sampleMint.decimals)],
          Except.ok w1) ∧
        w1.tokenAccounts sampleTransferMeta.recipient_token_account =
          some ⟨sampleTransferMeta.mint_account, sampleTransferMeta.recipient, 0⟩) ∧
    ∀ h2 : CpiCall → World → Except Err World,
      exec_burn_tokens sampleDerive h2 sampleWorld sampleBurnMeta 7 =
        ([], Except.error ACCOUNT_VALIDATION_ERR) :=
  C9_init_if_needed sampleDerive sampleWorld sampleMintMeta sampleTransferMeta
    sampleBurnMeta sampleMint sampleMint ⟨3, 4, 500⟩ 7
    (by decide) (by decide) (by decide) (by decide) (by decide) (by decide)
    (by decide) (by decide) (by decide) (by decide) (by decide) (by decide)
    (by decide) (by decide) (by decide) (by decide) (by decide) (by decide)
    (by decide) (by decide) (by decide)

/-- C10: a handler body runs (issues its CPI) only when the declared
authority actually signed and every constrained token account is exactly
the derived associated token account of its stated (owner, mint) pair;
any validation failure is rejected with the validation error before a
single CPI is issued. -/
theorem C10_validation_preconditions (derive : Pubkey → Pubkey → Pubkey)
    (h : CpiCall → World → Except Err World) (w : World)
    (mm : MintTokenMeta) (tm : TransferTokensMeta) (bm : BurnTokensMeta)
    (a : Nat) :
    ((exec_mint_token derive h w mm a).1 ≠ [] →
       w.isSigner mm.mint_authority = true ∧
       mm.associated_token_account = derive mm.recipient mm.mint_account) ∧
    ((exec_transfer_tokens derive h w tm a).1 ≠ [] →
       w.isSigner tm.sender = true ∧
       tm.sender_token_account = derive tm.sender tm.mint_account ∧
       tm.recipient_token_account = derive tm.recipient tm.mint_account) ∧
    ((exec_burn_tokens derive h w bm a).1 ≠ [] →
       w.isSigner bm.owner = true ∧
       bm.token_account = derive bm.owner bm.mint_account) ∧
    (validateMintToken derive w mm = none →
       exec_mint_token derive h w mm a = ([], Except.error ACCOUNT_VALIDATION_ERR)) ∧
    (validateTransferTokens derive w tm = none →
       exec_transfer_tokens derive h w tm a = ([], Except.error ACCOUNT_VALIDATION_ERR)) ∧
    (validateBurnTokens derive w bm = none →
       exec_burn_tokens derive h w bm a = ([], Except.error ACCOUNT_VALIDATION_ERR)) := by
  refine ⟨?_, ?_, ?_, ?_, ?_, ?_⟩
  · intro hne
    rcases hv : validateMintToken derive w mm with _ | p
    · simp [exec_mint_token, hv] at hne
    · exact validateMintToken_some_inv hv
  · intro hne
    rcases hv : validateTransferTokens derive w tm with _ | p
    · simp [exec_transfer_tokens, hv] at hne
    · exact validateTransferTokens_some_inv hv
  · intro hne
    rcases hv : validateBurnTokens derive w bm with _ | p
    · simp [exec_burn_tokens, hv] at hne
    · exact validateBurnTokens_some_inv hv
  · intro hv
    simp [exec_mint_token, hv]
  · intro hv
    simp [exec_transfer_tokens, hv]
  · intro hv
    simp [exec_burn_tokens, hv]

/-- C10 witness: at the sample world the mint handler does issue its CPI,
and the theorem yields the discharged preconditions; the burn validation
fails there, and the theorem yields the CPI-free rejection. -/
theorem C10_witness :
    (sampleWorld.isSigner sampleMintMeta.mint_authority = true ∧
      sampleMintMeta.associated_token_account =
        sampleDerive sampleMintMeta.recipient sampleMintMeta.mint_account) ∧
    exec_burn_tokens sampleDerive okHost sampleWorld sampleBurnMeta 7 =
      ([], Except.error ACCOUNT_VALIDATION_ERR) :=
  ⟨(C10_validation_preconditions sampleDerive okHost sampleWorld sampleMintMeta
      sampleTransferMeta sampleBurnMeta 7).1 (by decide),
   (C10_validation_preconditions sampleDerive okHost sampleWorld sampleMintMeta
      sampleTransferMeta sampleBurnMeta 7).2.2.2.2.2
     (validateBurnTokens_none_of_missing sampleDerive sampleWorld sampleBurnMeta
       (by decide))⟩

end TransferTokens
